import Mathlib

/-!
Shallow embedding of src/src/components/LocationPicker.tsx (the LocationPicker
React component).

The component is a map widget: a mapbox map with one draggable marker, a
debounced free-text geocoding search with a popover result list, and a host
callback invoked with (latitude, longitude) on every confirmed selection.

Modelling choices:
* Coordinates are rationals (the component only shuffles them, never computes).
* The mutable refs map.current / marker.current are Option fields: none models
  a null ref (missing container, or after unmount).
* React state hooks (searchInput, open, searchResults) are plain fields.
* setTimeout / clearTimeout are modelled by a list of armed timers plus the
  timeoutId captured by the current debounce-effect closure; real time is a
  Nat clock advanced by elapse events.  The debounce useEffect has dependency
  array [searchInput], so it re-runs exactly when the value of searchInput
  changed between renders; its cleanup clears the previously armed timeout.
* Observable effects are traces: lookups (handleSearch invocations by a fired
  timer), netCalls (fetches actually issued), callbacks (onLocationSelected
  invocations, latitude first), errorsLogged (console.error count).
* fetch + response.json() + data.features is an oracle FetchOutcome: a network
  rejection and a response without a features array both throw inside the try
  block and are caught by the same catch.
-/

namespace LocationPicker

/-- A geocoding search result: display label plus its two-element center,
stored in (longitude, latitude) order as returned by the mapbox API. -/
structure SearchResult where
  place_name : String
  center : ℚ × ℚ
deriving DecidableEq

/-- The map viewport: center in (longitude, latitude) order, and zoom. -/
structure MapView where
  center : ℚ × ℚ
  zoom : ℚ
deriving DecidableEq

/-- An armed setTimeout: its timeout id, absolute deadline, and the
searchInput value captured by the debounce-effect closure that armed it. -/
structure Timer where
  id : Nat
  deadline : Nat
  query : String
deriving DecidableEq

/-- The component state: React state hooks, the mutable map/marker refs,
the timer bookkeeping of the debounce effect, and effect traces. -/
structure PickerState where
  searchInput : String
  popoverOpen : Bool
  searchResults : List SearchResult
  map : Option MapView
  marker : Option (ℚ × ℚ)
  now : Nat
  timers : List Timer
  lastTimeoutId : Option Nat
  nextId : Nat
  lookups : List (Nat × String)
  netCalls : List String
  inflight : List String
  errorsLogged : Nat
  callbacks : List (ℚ × ℚ)
  mounted : Bool

/-- Default initialLat of the component props. -/
def defaultLat : ℚ := 28.3949

/-- Default initialLng of the component props. -/
def defaultLng : ℚ := 84.1240

/-- The guard !query.trim() of handleSearch: the query is empty once
whitespace is trimmed, i.e. every character is whitespace.  (Stated this way
because it is the exact condition the trim test decides, and it is
kernel-decidable.) -/
def isBlank (q : String) : Bool :=
  q.data.all Char.isWhitespace

/-- Oracle for the awaited part of handleSearch: the fetch and the shape of
the parsed JSON. -/
inductive FetchOutcome where
  | networkError
  | missingFeatures
  | success (features : List SearchResult)
deriving DecidableEq

/-- What the try block observes: a network rejection throws, and mapping over
a missing features array throws; both are errors caught by the catch. -/
def fetchGeocode (outcome : FetchOutcome) : Except Unit (List SearchResult) :=
  match outcome with
  | .networkError => .error ()
  | .missingFeatures => .error ()
  | .success feats => .ok feats

/-- handleSearch(query): blank queries short-circuit to an empty result list
with no fetch; otherwise a fetch is issued and, on success, the result list is
replaced by the returned features, while any thrown error is caught,
logged via console.error, and the result list is cleared.  The function is
total: no exception escapes the component boundary. -/
def handleSearch (s : PickerState) (query : String) (outcome : FetchOutcome) :
    PickerState :=
  if isBlank query then
    { s with searchResults := [] }
  else
    let s1 := { s with netCalls := s.netCalls ++ [query] }
    match fetchGeocode outcome with
    | .ok feats => { s1 with searchResults := feats }
    | .error _ =>
        { s1 with searchResults := [], errorsLogged := s1.errorsLogged + 1 }

/-- selectLocation(result): destructures result.center as [lng, lat],
moves the marker there when the marker ref is non-null, flies the map to that
center at zoom 14 when the map ref is non-null, sets the search input to the
result label, closes the popover, and invokes onLocationSelected(lat, lng). -/
def selectLocation (s : PickerState) (result : SearchResult) : PickerState :=
  let lng := result.center.1
  let lat := result.center.2
  { s with
    marker := match s.marker with
      | some _ => some (lng, lat)
      | none => none
    map := match s.map with
      | some _ => some ⟨(lng, lat), 14⟩
      | none => none
    searchInput := result.place_name
    popoverOpen := false
    callbacks := s.callbacks ++ [(lat, lng)] }

/-- clearTimeout(timeoutId) as run by the debounce-effect cleanup: removes the
timer whose id the current effect closure captured, if any. -/
def clearLast (s : PickerState) : List Timer :=
  match s.lastTimeoutId with
  | none => s.timers
  | some i => s.timers.filter (fun t => t.id ≠ i)

/-- Re-run of the debounce useEffect after a render in which searchInput may
have changed from oldInput.  React compares the dependency array [searchInput]:
if the value is unchanged the effect does not re-run; otherwise the previous
cleanup clears the pending timeout and the body arms a fresh 300 ms timeout
capturing the new searchInput. -/
def rearmDebounce (s : PickerState) (oldInput : String) : PickerState :=
  if s.searchInput = oldInput then s
  else
    { s with
      timers := clearLast s ++ [⟨s.nextId, s.now + 300, s.searchInput⟩]
      lastTimeoutId := some s.nextId
      nextId := s.nextId + 1 }

/-- A timer firing: the timeout callback runs handleSearch(query).  The
synchronous prefix of handleSearch either short-circuits a blank query to an
empty result list, or issues the fetch (recorded in netCalls and left
in-flight until a resolve event delivers the outcome). -/
def fireTimer (s : PickerState) (t : Timer) : PickerState :=
  let s1 := { s with lookups := s.lookups ++ [(t.deadline, t.query)] }
  if isBlank t.query then
    { s1 with searchResults := [] }
  else
    { s1 with netCalls := s1.netCalls ++ [t.query],
              inflight := s1.inflight ++ [t.query] }

/-- The events the component reacts to. -/
inductive Ev where
  | typeText (q : String)
  | inputClick
  | dismiss
  | select (r : SearchResult)
  | mapClick (lng lat : ℚ)
  | dragEnd (lng lat : ℚ)
  | elapse (d : Nat)
  | resolve (q : String) (outcome : FetchOutcome)
  | unmount
deriving DecidableEq

/-- One step of the component.
* typeText q: the Input onChange handler calls setSearchInput(q); the debounce
  effect then re-runs if the value changed.
* inputClick: the Input onClick handler calls setOpen(true).
* dismiss: the popover onOpenChange(false) path (blur, outside click, escape).
* select r: a CommandItem onSelect runs selectLocation(r); since selectLocation
  calls setSearchInput(result.place_name), the debounce effect re-runs if that
  value changed.
* mapClick lng lat: the map click handler (attached only when a map was
  created) moves the marker to the clicked coordinate when the marker ref is
  non-null and calls onLocationSelected(lat, lng); it never touches the
  viewport, the search text, the popover, or the results.
* dragEnd lng lat: mapbox has moved the marker to (lng, lat); the dragend
  handler reads marker.current?.getLngLat() and calls
  onLocationSelected(lat, lng).
* elapse d: the clock advances; every armed timer whose deadline has passed
  fires.
* resolve q outcome: an in-flight fetch for q returns and the awaited rest of
  handleSearch runs.
* unmount: the effect cleanups run: the pending debounce timeout is cleared
  and map.current?.remove() releases the map and marker handles. -/
def step (s : PickerState) : Ev → PickerState
  | .typeText q =>
      if s.mounted then rearmDebounce { s with searchInput := q } s.searchInput
      else s
  | .inputClick =>
      if s.mounted then { s with popoverOpen := true } else s
  | .dismiss =>
      if s.mounted then { s with popoverOpen := false } else s
  | .select r =>
      if s.mounted then rearmDebounce (selectLocation s r) s.searchInput
      else s
  | .mapClick lng lat =>
      if s.mounted then
        match s.map with
        | none => s
        | some _ =>
            { s with
              marker := match s.marker with
                | some _ => some (lng, lat)
                | none => none
              callbacks := s.callbacks ++ [(lat, lng)] }
      else s
  | .dragEnd lng lat =>
      if s.mounted then
        match s.marker with
        | none => s
        | some _ =>
            { s with
              marker := some (lng, lat),
              callbacks := s.callbacks ++ [(lat, lng)] }
      else s
  | .elapse d =>
      let now2 := s.now + d
      let fired := s.timers.filter (fun t => t.deadline ≤ now2)
      let remaining := s.timers.filter (fun t => ¬ t.deadline ≤ now2)
      fired.foldl fireTimer { s with now := now2, timers := remaining }
  | .resolve q outcome =>
      if q ∈ s.inflight then
        match fetchGeocode outcome with
        | .ok feats =>
            { s with inflight := s.inflight.erase q, searchResults := feats }
        | .error _ =>
            { s with
              inflight := s.inflight.erase q,
              searchResults := [],
              errorsLogged := s.errorsLogged + 1 }
      else s
  | .unmount =>
      if s.mounted then
        { s with
          timers := clearLast s,
          lastTimeoutId := none,
          map := none,
          marker := none,
          mounted := false }
      else s

/-- The mounted component.  The mount effect returns early when the container
ref is null, creating neither map nor marker; otherwise it creates the map at
center [initialLng, initialLat] zoom 6 and a draggable marker there.  The
debounce effect runs on mount regardless, arming a 300 ms timeout for the
initial empty searchInput. -/
def initState (containerPresent : Bool) (initialLat initialLng : ℚ) :
    PickerState :=
  { searchInput := ""
    popoverOpen := false
    searchResults := []
    map := if containerPresent then some ⟨(initialLng, initialLat), 6⟩ else none
    marker := if containerPresent then some (initialLng, initialLat) else none
    now := 0
    timers := [⟨0, 300, ""⟩]
    lastTimeoutId := some 0
    nextId := 1
    lookups := []
    netCalls := []
    inflight := []
    errorsLogged := 0
    callbacks := []
    mounted := true }

/-- States reachable from a freshly mounted component. -/
inductive Reachable : PickerState → Prop where
  | init (cp : Bool) (lat lng : ℚ) : Reachable (initState cp lat lng)
  | step {s : PickerState} (e : Ev) : Reachable s → Reachable (step s e)

/-- Run a sequence of events. -/
def run (s : PickerState) (es : List Ev) : PickerState :=
  es.foldl step s

/-- Bookkeeping invariant of the debounce effect: at most one timer is armed,
an armed timer is the one the current effect closure captured, and an
unmounted component has no armed timer. -/
structure TimerInv (s : PickerState) : Prop where
  single : s.timers = [] ∨ ∃ t, s.timers = [t] ∧ s.lastTimeoutId = some t.id
  unmounted_nil : s.mounted = false → s.timers = []

lemma fireTimer_lookups (s : PickerState) (t : Timer) :
    (fireTimer s t).lookups = s.lookups ++ [(t.deadline, t.query)] := by
  unfold fireTimer; split <;> rfl

lemma fireTimer_timers (s : PickerState) (t : Timer) :
    (fireTimer s t).timers = s.timers := by
  unfold fireTimer; split <;> rfl

lemma fireTimer_lastTimeoutId (s : PickerState) (t : Timer) :
    (fireTimer s t).lastTimeoutId = s.lastTimeoutId := by
  unfold fireTimer; split <;> rfl

lemma fireTimer_mounted (s : PickerState) (t : Timer) :
    (fireTimer s t).mounted = s.mounted := by
  unfold fireTimer; split <;> rfl

lemma fireTimer_popoverOpen (s : PickerState) (t : Timer) :
    (fireTimer s t).popoverOpen = s.popoverOpen := by
  unfold fireTimer; split <;> rfl

lemma foldl_fireTimer_timers :
    ∀ (l : List Timer) (s : PickerState), (l.foldl fireTimer s).timers = s.timers
  | [], _ => rfl
  | t :: l, s => by
      rw [List.foldl_cons, foldl_fireTimer_timers l, fireTimer_timers]

lemma foldl_fireTimer_lastTimeoutId :
    ∀ (l : List Timer) (s : PickerState),
      (l.foldl fireTimer s).lastTimeoutId = s.lastTimeoutId
  | [], _ => rfl
  | t :: l, s => by
      rw [List.foldl_cons, foldl_fireTimer_lastTimeoutId l, fireTimer_lastTimeoutId]

lemma foldl_fireTimer_mounted :
    ∀ (l : List Timer) (s : PickerState), (l.foldl fireTimer s).mounted = s.mounted
  | [], _ => rfl
  | t :: l, s => by
      rw [List.foldl_cons, foldl_fireTimer_mounted l, fireTimer_mounted]

lemma foldl_fireTimer_popoverOpen :
    ∀ (l : List Timer) (s : PickerState),
      (l.foldl fireTimer s).popoverOpen = s.popoverOpen
  | [], _ => rfl
  | t :: l, s => by
      rw [List.foldl_cons, foldl_fireTimer_popoverOpen l, fireTimer_popoverOpen]

lemma foldl_fireTimer_lookups :
    ∀ (l : List Timer) (s : PickerState),
      (l.foldl fireTimer s).lookups = s.lookups ++ l.map (fun t => (t.deadline, t.query))
  | [], s => by simp
  | t :: l, s => by
      rw [List.foldl_cons, foldl_fireTimer_lookups l, fireTimer_lookups]
      simp

lemma clearLast_eq_nil {s : PickerState}
    (h : s.timers = [] ∨ ∃ t, s.timers = [t] ∧ s.lastTimeoutId = some t.id) :
    clearLast s = [] := by
  rcases h with h | ⟨t, ht, hl⟩
  · unfold clearLast; cases s.lastTimeoutId <;> simp [h]
  · unfold clearLast; rw [hl, ht]; simp

lemma mounted_contra {s : PickerState} {C : Prop}
    (hm : s.mounted = true) (hf : s.mounted = false) : C := by
  rw [hm] at hf; exact Bool.noConfusion hf

lemma step_frame_inputClick (s : PickerState) :
    (step s .inputClick).timers = s.timers
      ∧ (step s .inputClick).lastTimeoutId = s.lastTimeoutId
      ∧ (step s .inputClick).mounted = s.mounted := by
  simp only [step]
  refine ⟨?_, ?_, ?_⟩ <;> (split <;> rfl)

lemma step_frame_dismiss (s : PickerState) :
    (step s .dismiss).timers = s.timers
      ∧ (step s .dismiss).lastTimeoutId = s.lastTimeoutId
      ∧ (step s .dismiss).mounted = s.mounted := by
  simp only [step]
  refine ⟨?_, ?_, ?_⟩ <;> (split <;> rfl)

lemma step_frame_mapClick (s : PickerState) (lng lat : ℚ) :
    (step s (.mapClick lng lat)).timers = s.timers
      ∧ (step s (.mapClick lng lat)).lastTimeoutId = s.lastTimeoutId
      ∧ (step s (.mapClick lng lat)).mounted = s.mounted := by
  simp only [step]
  refine ⟨?_, ?_, ?_⟩ <;> (split <;> first | rfl | (split <;> rfl))

lemma step_frame_dragEnd (s : PickerState) (lng lat : ℚ) :
    (step s (.dragEnd lng lat)).timers = s.timers
      ∧ (step s (.dragEnd lng lat)).lastTimeoutId = s.lastTimeoutId
      ∧ (step s (.dragEnd lng lat)).mounted = s.mounted := by
  simp only [step]
  refine ⟨?_, ?_, ?_⟩ <;> (split <;> first | rfl | (split <;> rfl))

lemma step_frame_resolve (s : PickerState) (q : String) (o : FetchOutcome) :
    (step s (.resolve q o)).timers = s.timers
      ∧ (step s (.resolve q o)).lastTimeoutId = s.lastTimeoutId
      ∧ (step s (.resolve q o)).mounted = s.mounted := by
  simp only [step]
  refine ⟨?_, ?_, ?_⟩ <;> (split <;> first | rfl | (split <;> rfl))

lemma rearm_timerInv {s : PickerState} (old : String)
    (h1 : s.timers = [] ∨ ∃ t, s.timers = [t] ∧ s.lastTimeoutId = some t.id)
    (hm : s.mounted = true) : TimerInv (rearmDebounce s old) := by
  unfold rearmDebounce
  split
  · exact ⟨h1, fun hf => mounted_contra hm hf⟩
  · refine ⟨Or.inr ⟨⟨s.nextId, s.now + 300, s.searchInput⟩, ?_, rfl⟩,
      fun hf => mounted_contra hm hf⟩
    show clearLast s ++ [⟨s.nextId, s.now + 300, s.searchInput⟩] = _
    rw [clearLast_eq_nil h1]
    rfl

lemma timerInv_step {s : PickerState} (e : Ev) (h : TimerInv s) :
    TimerInv (step s e) := by
  obtain ⟨h1, h2⟩ := h
  cases e with
  | typeText q =>
      cases hsm : s.mounted with
      | false =>
          rw [show step s (.typeText q) = s from by simp [step, hsm]]
          exact ⟨h1, h2⟩
      | true =>
          rw [show step s (.typeText q)
              = rearmDebounce { s with searchInput := q } s.searchInput from by
            simp [step, hsm]]
          exact rearm_timerInv s.searchInput h1 hsm
  | inputClick =>
      obtain ⟨e1, e2, e3⟩ := step_frame_inputClick s
      exact ⟨by rw [e1, e2]; exact h1, by rw [e1, e3]; exact h2⟩
  | dismiss =>
      obtain ⟨e1, e2, e3⟩ := step_frame_dismiss s
      exact ⟨by rw [e1, e2]; exact h1, by rw [e1, e3]; exact h2⟩
  | select r =>
      cases hsm : s.mounted with
      | false =>
          rw [show step s (.select r) = s from by simp [step, hsm]]
          exact ⟨h1, h2⟩
      | true =>
          rw [show step s (.select r)
              = rearmDebounce (selectLocation s r) s.searchInput from by
            simp [step, hsm]]
          exact rearm_timerInv s.searchInput h1 hsm
  | mapClick lng lat =>
      obtain ⟨e1, e2, e3⟩ := step_frame_mapClick s lng lat
      exact ⟨by rw [e1, e2]; exact h1, by rw [e1, e3]; exact h2⟩
  | dragEnd lng lat =>
      obtain ⟨e1, e2, e3⟩ := step_frame_dragEnd s lng lat
      exact ⟨by rw [e1, e2]; exact h1, by rw [e1, e3]; exact h2⟩
  | elapse d =>
      show TimerInv (List.foldl fireTimer _ _)
      constructor
      · rw [foldl_fireTimer_timers, foldl_fireTimer_lastTimeoutId]
        rcases h1 with h1 | ⟨t, ht, hl⟩
        · left; simp [h1]
        · rw [ht]
          by_cases hp : t.deadline ≤ s.now + d
          · left; simp [hp]
          · refine Or.inr ⟨t, ?_, hl⟩
            simp only [List.filter_cons, List.filter_nil]
            rw [if_pos (by simpa using hp)]
      · rw [foldl_fireTimer_mounted, foldl_fireTimer_timers]
        intro hf
        have ht : s.timers = [] := h2 hf
        simp [ht]
  | resolve q o =>
      obtain ⟨e1, e2, e3⟩ := step_frame_resolve s q o
      exact ⟨by rw [e1, e2]; exact h1, by rw [e1, e3]; exact h2⟩
  | unmount =>
      cases hsm : s.mounted with
      | false =>
          rw [show step s .unmount = s from by simp [step, hsm]]
          exact ⟨h1, h2⟩
      | true =>
          rw [show step s .unmount
              = { s with
                  timers := clearLast s
                  lastTimeoutId := none
                  map := none
                  marker := none
                  mounted := false } from by simp [step, hsm]]
          exact ⟨Or.inl (clearLast_eq_nil h1), fun _ => clearLast_eq_nil h1⟩

lemma reachable_timerInv {s : PickerState} (h : Reachable s) : TimerInv s := by
  induction h with
  | init cp lat lng =>
      refine ⟨Or.inr ⟨⟨0, 300, ""⟩, rfl, rfl⟩, fun hf => ?_⟩
      exact mounted_contra (s := initState cp lat lng) rfl hf
  | step e _ ih => exact timerInv_step e ih

/-- Claim C9: if the map container element is missing at mount time, the mount
effect returns early: neither map nor marker is initialized, and the component
still mounts (total, no crash). -/
theorem missing_container_skips_map_init (lat lng : ℚ) :
    (initState false lat lng).map = none
    ∧ (initState false lat lng).marker = none
    ∧ (initState false lat lng).mounted = true :=
  ⟨rfl, rfl, rfl⟩

/-- Claim C3: a query that is empty or consists only of whitespace
short-circuits handleSearch: the result list is set to empty and no network
call is performed, whatever the network would have answered. -/
theorem blank_query_no_network (s : PickerState) (q : String) (o : FetchOutcome)
    (hb : isBlank q = true) :
    (handleSearch s q o).searchResults = []
    ∧ (handleSearch s q o).netCalls = s.netCalls := by
  simp [handleSearch, hb]

theorem blank_query_no_network_witness :
    isBlank "   " = true
    ∧ (handleSearch (initState true 28 84) "   " .networkError).searchResults = []
    ∧ (handleSearch (initState true 28 84) "   " .networkError).netCalls
        = (initState true 28 84).netCalls := by
  have h := blank_query_no_network (initState true 28 84) "   " .networkError
    (by decide)
  exact ⟨by decide, h.1, h.2⟩

/-- Claim C4: for a non-blank query whose lookup fails (network rejection or a
response without a features array), handleSearch clears the result list, logs
the failure once via console.error, and returns normally (the catch swallows
the exception; handleSearch is a total function). -/
theorem failed_lookup_clears_and_logs (s : PickerState) (q : String)
    (o : FetchOutcome) (hb : isBlank q = false)
    (he : fetchGeocode o = .error ()) :
    (handleSearch s q o).searchResults = []
    ∧ (handleSearch s q o).errorsLogged = s.errorsLogged + 1
    ∧ (handleSearch s q o).netCalls = s.netCalls ++ [q] := by
  simp [handleSearch, hb, he]

theorem failed_lookup_clears_and_logs_witness :
    isBlank "Pokhara" = false
    ∧ (handleSearch (initState true 28 84) "Pokhara" .missingFeatures).searchResults = []
    ∧ (handleSearch (initState true 28 84) "Pokhara" .missingFeatures).errorsLogged
        = (initState true 28 84).errorsLogged + 1 := by
  have h := failed_lookup_clears_and_logs (initState true 28 84) "Pokhara"
    .missingFeatures (by decide) rfl
  exact ⟨by decide, h.1, h.2.1⟩

/-- Claim C1: selecting a search result whose stored center is (c0, c1) in
longitude-first order moves the marker to that coordinate, flies the map
viewport to center on it at zoom 14, sets the search text to the result
label, closes the result list, and calls the host callback latitude first,
i.e. with (c1, c0). -/
theorem select_location_spec (s : PickerState) (r : SearchResult) (c0 c1 : ℚ)
    (hc : r.center = (c0, c1)) (hmk : s.marker.isSome = true)
    (hmap : s.map.isSome = true) :
    (selectLocation s r).marker = some (c0, c1)
    ∧ (selectLocation s r).map = some ⟨(c0, c1), 14⟩
    ∧ (selectLocation s r).searchInput = r.place_name
    ∧ (selectLocation s r).popoverOpen = false
    ∧ (selectLocation s r).callbacks = s.callbacks ++ [(c1, c0)] := by
  obtain ⟨mk, hmk2⟩ := Option.isSome_iff_exists.mp hmk
  obtain ⟨mv, hmap2⟩ := Option.isSome_iff_exists.mp hmap
  simp [selectLocation, hmk2, hmap2, hc]

theorem select_location_spec_witness :
    (selectLocation (initState true 28 84) ⟨"Lumbini", (83, 27)⟩).marker
        = some (83, 27)
    ∧ (selectLocation (initState true 28 84) ⟨"Lumbini", (83, 27)⟩).map
        = some ⟨(83, 27), 14⟩
    ∧ (selectLocation (initState true 28 84) ⟨"Lumbini", (83, 27)⟩).searchInput
        = "Lumbini"
    ∧ (selectLocation (initState true 28 84) ⟨"Lumbini", (83, 27)⟩).popoverOpen
        = false
    ∧ (selectLocation (initState true 28 84) ⟨"Lumbini", (83, 27)⟩).callbacks
        = (initState true 28 84).callbacks ++ [(27, 83)] :=
  select_location_spec (initState true 28 84) ⟨"Lumbini", (83, 27)⟩ 83 27
    rfl rfl rfl

/-- Claim C5: a map-surface click at (lat, lng) moves the marker exactly there
and invokes the host callback with (lat, lng), while the map viewport (center
and zoom), the search text, the popover open state, and the result list are
all left unchanged. -/
theorem map_click_spec (s : PickerState) (lng lat : ℚ)
    (hm : s.mounted = true) (hmap : s.map.isSome = true)
    (hmk : s.marker.isSome = true) :
    (step s (.mapClick lng lat)).marker = some (lng, lat)
    ∧ (step s (.mapClick lng lat)).callbacks = s.callbacks ++ [(lat, lng)]
    ∧ (step s (.mapClick lng lat)).map = s.map
    ∧ (step s (.mapClick lng lat)).searchInput = s.searchInput
    ∧ (step s (.mapClick lng lat)).popoverOpen = s.popoverOpen
    ∧ (step s (.mapClick lng lat)).searchResults = s.searchResults := by
  obtain ⟨mv, hmap2⟩ := Option.isSome_iff_exists.mp hmap
  obtain ⟨mk, hmk2⟩ := Option.isSome_iff_exists.mp hmk
  simp [step, hm, hmap2, hmk2]

theorem map_click_spec_witness :
    (step (initState true 28 84) (.mapClick 85.3 27.7)).marker = some (85.3, 27.7)
    ∧ (step (initState true 28 84) (.mapClick 85.3 27.7)).callbacks
        = (initState true 28 84).callbacks ++ [(27.7, 85.3)]
    ∧ (step (initState true 28 84) (.mapClick 85.3 27.7)).map
        = (initState true 28 84).map :=
  ⟨(map_click_spec (initState true 28 84) 85.3 27.7 rfl rfl rfl).1,
   (map_click_spec (initState true 28 84) 85.3 27.7 rfl rfl rfl).2.1,
   (map_click_spec (initState true 28 84) 85.3 27.7 rfl rfl rfl).2.2.1⟩

/-- Claim C6: when a marker drag ends at (lng, lat), the dragend handler
invokes the host callback exactly once (exactly one invocation is appended to
the callback trace), with the final resting coordinate latitude first. -/
theorem drag_end_spec (s : PickerState) (lng lat : ℚ)
    (hm : s.mounted = true) (hmk : s.marker.isSome = true) :
    (step s (.dragEnd lng lat)).callbacks = s.callbacks ++ [(lat, lng)]
    ∧ (step s (.dragEnd lng lat)).marker = some (lng, lat) := by
  obtain ⟨mk, hmk2⟩ := Option.isSome_iff_exists.mp hmk
  simp [step, hm, hmk2]

theorem drag_end_spec_witness :
    (step (initState true 28 84) (.dragEnd 85.3 27.7)).callbacks
        = (initState true 28 84).callbacks ++ [(27.7, 85.3)]
    ∧ (step (initState true 28 84) (.dragEnd 85.3 27.7)).marker
        = some (85.3, 27.7) :=
  drag_end_spec (initState true 28 84) 85.3 27.7 rfl rfl

lemma rearm_popoverOpen (s : PickerState) (old : String) :
    (rearmDebounce s old).popoverOpen = s.popoverOpen := by
  unfold rearmDebounce; split <;> rfl

lemma rearm_searchInput (s : PickerState) (old : String) :
    (rearmDebounce s old).searchInput = s.searchInput := by
  unfold rearmDebounce; split <;> rfl

lemma rearm_lookups (s : PickerState) (old : String) :
    (rearmDebounce s old).lookups = s.lookups := by
  unfold rearmDebounce; split <;> rfl

lemma rearm_netCalls (s : PickerState) (old : String) :
    (rearmDebounce s old).netCalls = s.netCalls := by
  unfold rearmDebounce; split <;> rfl

lemma step_typeText_eq (s : PickerState) (q : String) (hm : s.mounted = true) :
    step s (.typeText q)
      = rearmDebounce { s with searchInput := q } s.searchInput := by
  simp [step, hm]

lemma step_select_eq (s : PickerState) (r : SearchResult)
    (hm : s.mounted = true) :
    step s (.select r) = rearmDebounce (selectLocation s r) s.searchInput := by
  simp [step, hm]

/-- Claim C8: the result-list visibility admits exactly the transitions of the
spec state machine: an input click (the focus gesture) opens it, a result
selection or a popover dismissal (blur) closes it, and every other event
leaves its open state unchanged. -/
theorem popover_state_machine (s : PickerState) (hm : s.mounted = true) :
    (step s .inputClick).popoverOpen = true
    ∧ (step s .dismiss).popoverOpen = false
    ∧ (∀ r, (step s (.select r)).popoverOpen = false)
    ∧ (∀ q, (step s (.typeText q)).popoverOpen = s.popoverOpen)
    ∧ (∀ lng lat, (step s (.mapClick lng lat)).popoverOpen = s.popoverOpen)
    ∧ (∀ lng lat, (step s (.dragEnd lng lat)).popoverOpen = s.popoverOpen)
    ∧ (∀ d, (step s (.elapse d)).popoverOpen = s.popoverOpen)
    ∧ (∀ q o, (step s (.resolve q o)).popoverOpen = s.popoverOpen)
    ∧ (step s .unmount).popoverOpen = s.popoverOpen := by
  refine ⟨by simp [step, hm], by simp [step, hm], ?_, ?_, ?_, ?_, ?_, ?_, ?_⟩
  · intro r
    rw [step_select_eq s r hm, rearm_popoverOpen]
    rfl
  · intro q
    rw [step_typeText_eq s q hm, rearm_popoverOpen]
  · intro lng lat
    simp only [step]
    repeat' split
    all_goals rfl
  · intro lng lat
    simp only [step]
    repeat' split
    all_goals rfl
  · intro d
    show (List.foldl fireTimer _ _).popoverOpen = _
    rw [foldl_fireTimer_popoverOpen]
  · intro q o
    simp only [step]
    repeat' split
    all_goals rfl
  · simp only [step]
    split <;> rfl

theorem popover_state_machine_witness :
    (step (initState true 28 84) .inputClick).popoverOpen = true
    ∧ (step (initState true 28 84) (.select ⟨"Lumbini", (83, 27)⟩)).popoverOpen
        = false
    ∧ (step (initState true 28 84) .dismiss).popoverOpen = false := by
  obtain ⟨h1, h2, h3, _⟩ := popover_state_machine (initState true 28 84) rfl
  exact ⟨h1, h3 _, h2⟩

lemma rearm_timers_ne {s : PickerState} {old : String}
    (hne : s.searchInput ≠ old) (hnil : clearLast s = []) :
    (rearmDebounce s old).timers
      = [⟨s.nextId, s.now + 300, s.searchInput⟩] := by
  unfold rearmDebounce
  rw [if_neg hne]
  show clearLast s ++ _ = _
  rw [hnil]
  rfl

lemma step_lookups_frame (s : PickerState) (e : Ev)
    (hne : ∀ d, e ≠ Ev.elapse d) : (step s e).lookups = s.lookups := by
  cases e with
  | elapse d => exact absurd rfl (hne d)
  | typeText q =>
      simp only [step]
      split
      · rw [rearm_lookups]
      · rfl
  | select r =>
      simp only [step]
      split
      · rw [rearm_lookups]; rfl
      · rfl
  | _ =>
      simp only [step]
      repeat' split
      all_goals rfl

/-- Claim C2: at most one debounce timer is armed in any reachable state; a
search-text change in a mounted state cancels the pending timer and leaves
exactly the one fresh timer armed for 300 ms later with the new text; and
lookups are issued only by elapse events, exactly for the armed timers whose
300 ms deadline has passed without a further change having cancelled them. -/
theorem debounce_spec (s : PickerState) (h : Reachable s) :
    s.timers.length ≤ 1
    ∧ (∀ q, s.mounted = true → q ≠ s.searchInput →
        (step s (.typeText q)).timers = [⟨s.nextId, s.now + 300, q⟩])
    ∧ (∀ e, (∀ d, e ≠ Ev.elapse d) → (step s e).lookups = s.lookups)
    ∧ (∀ d, (step s (.elapse d)).lookups
        = s.lookups
          ++ (s.timers.filter (fun t => t.deadline ≤ s.now + d)).map
              (fun t => (t.deadline, t.query))) := by
  have hinv := reachable_timerInv h
  refine ⟨?_, ?_, fun e hne => step_lookups_frame s e hne, ?_⟩
  · rcases hinv.single with h1 | ⟨t, ht, _⟩
    · simp [h1]
    · simp [ht]
  · intro q hm hqne
    rw [step_typeText_eq s q hm]
    exact rearm_timers_ne
      (show ({ s with searchInput := q } : PickerState).searchInput
          ≠ s.searchInput from hqne)
      (clearLast_eq_nil (s := { s with searchInput := q }) hinv.single)
  · intro d
    show (List.foldl fireTimer _ _).lookups = _
    rw [foldl_fireTimer_lookups]

theorem debounce_spec_witness :
    (initState true 28 84).timers.length ≤ 1
    ∧ (step (initState true 28 84) (.typeText "Kath")).timers
        = [⟨1, 300, "Kath"⟩]
    ∧ (step (initState true 28 84) .inputClick).lookups
        = (initState true 28 84).lookups
    ∧ (step (initState true 28 84) (.elapse 300)).lookups
        = (initState true 28 84).lookups
          ++ (((initState true 28 84).timers.filter
                (fun t => t.deadline ≤ (initState true 28 84).now + 300)).map
              (fun t => (t.deadline, t.query))) := by
  obtain ⟨w1, w2, w3, w4⟩ :=
    debounce_spec (initState true 28 84) (Reachable.init true 28 84)
  exact ⟨w1, w2 "Kath" rfl (by decide), w3 .inputClick (fun d => by simp), w4 300⟩

lemma unmounted_step_frame {s : PickerState} (hinv : TimerInv s)
    (hu : s.mounted = false) (e : Ev) :
    (step s e).netCalls = s.netCalls ∧ (step s e).lookups = s.lookups
      ∧ (step s e).mounted = false ∧ TimerInv (step s e) := by
  cases e with
  | typeText q =>
      rw [show step s (.typeText q) = s from by simp [step, hu]]
      exact ⟨rfl, rfl, hu, hinv⟩
  | inputClick =>
      rw [show step s .inputClick = s from by simp [step, hu]]
      exact ⟨rfl, rfl, hu, hinv⟩
  | dismiss =>
      rw [show step s .dismiss = s from by simp [step, hu]]
      exact ⟨rfl, rfl, hu, hinv⟩
  | select r =>
      rw [show step s (.select r) = s from by simp [step, hu]]
      exact ⟨rfl, rfl, hu, hinv⟩
  | mapClick lng lat =>
      rw [show step s (.mapClick lng lat) = s from by simp [step, hu]]
      exact ⟨rfl, rfl, hu, hinv⟩
  | dragEnd lng lat =>
      rw [show step s (.dragEnd lng lat) = s from by simp [step, hu]]
      exact ⟨rfl, rfl, hu, hinv⟩
  | elapse d =>
      have ht := hinv.unmounted_nil hu
      refine ⟨?_, ?_, ?_, ?_⟩
      · simp [step, ht]
      · simp [step, ht]
      · simp [step, ht, hu]
      · constructor
        · simp [step, ht]
        · intro _
          simp [step, ht]
  | resolve q o =>
      simp only [step]
      split
      · split
        · exact ⟨rfl, rfl, hu, ⟨hinv.single, fun _ => hinv.unmounted_nil hu⟩⟩
        · exact ⟨rfl, rfl, hu, ⟨hinv.single, fun _ => hinv.unmounted_nil hu⟩⟩
      · exact ⟨rfl, rfl, hu, hinv⟩
  | unmount =>
      rw [show step s .unmount = s from by simp [step, hu]]
      exact ⟨rfl, rfl, hu, hinv⟩

lemma run_unmounted_frame :
    ∀ (es : List Ev) (s : PickerState), TimerInv s → s.mounted = false →
      (run s es).netCalls = s.netCalls ∧ (run s es).lookups = s.lookups
  | [], _, _, _ => ⟨rfl, rfl⟩
  | e :: es, s, hinv, hu => by
      obtain ⟨e1, e2, e3, e4⟩ := unmounted_step_frame hinv hu e
      obtain ⟨i1, i2⟩ := run_unmounted_frame es (step s e) e4 e3
      refine ⟨?_, ?_⟩
      · rw [show run s (e :: es) = run (step s e) es from rfl, i1, e1]
      · rw [show run s (e :: es) = run (step s e) es from rfl, i2, e2]

lemma step_unmount_unmounted (s : PickerState) :
    (step s .unmount).mounted = false := by
  simp only [step]
  split
  · rfl
  · next h => exact Bool.not_eq_true _ |>.mp h

/-- Claim C7: unmounting cancels the pending debounce timer (no timer stays
armed), and afterwards no event sequence ever issues another handleSearch
lookup or geocoding network call. -/
theorem unmount_cancels_pending (s : PickerState) (h : Reachable s)
    (es : List Ev) :
    (step s .unmount).timers = []
    ∧ (run (step s .unmount) es).netCalls = (step s .unmount).netCalls
    ∧ (run (step s .unmount) es).lookups = (step s .unmount).lookups := by
  have hinv := reachable_timerInv h
  have hinv2 := timerInv_step .unmount hinv
  have hu := step_unmount_unmounted s
  obtain ⟨i1, i2⟩ := run_unmounted_frame es (step s .unmount) hinv2 hu
  exact ⟨hinv2.unmounted_nil hu, i1, i2⟩

theorem unmount_cancels_pending_witness :
    (step (initState true 28 84) .unmount).timers = []
    ∧ (run (step (initState true 28 84) .unmount)
          [.elapse 1000, .typeText "x"]).netCalls
        = (step (initState true 28 84) .unmount).netCalls
    ∧ (run (step (initState true 28 84) .unmount)
          [.elapse 1000, .typeText "x"]).lookups
        = (step (initState true 28 84) .unmount).lookups :=
  unmount_cancels_pending (initState true 28 84) (Reachable.init true 28 84)
    [.elapse 1000, .typeText "x"]

lemma rearm_now (s : PickerState) (old : String) :
    (rearmDebounce s old).now = s.now := by
  unfold rearmDebounce; split <;> rfl

lemma rearm_inflight (s : PickerState) (old : String) :
    (rearmDebounce s old).inflight = s.inflight := by
  unfold rearmDebounce; split <;> rfl

lemma elapse_single_fire (x : PickerState) (t : Timer) (d : Nat)
    (ht : x.timers = [t]) (hd : t.deadline ≤ x.now + d)
    (hb : isBlank t.query = false) :
    (step x (.elapse d)).lookups = x.lookups ++ [(t.deadline, t.query)]
    ∧ (step x (.elapse d)).netCalls = x.netCalls ++ [t.query]
    ∧ (step x (.elapse d)).inflight = x.inflight ++ [t.query] := by
  simp [step, ht, hd, hb, fireTimer]

lemma resolve_success_results (x : PickerState) (q : String)
    (feats : List SearchResult) (hq : q ∈ x.inflight) :
    (step x (.resolve q (.success feats))).searchResults = feats := by
  simp [step, hq, fetchGeocode]

/-- Claim C10, counterexample to the claim as stated: selecting a result whose
display label equals the current search text does not re-run the debounce
effect (the useEffect dependency [searchInput] is unchanged), so no timer is
re-armed and no lookup for the label is issued 300 ms after that selection.
Here the user types Kathmandu, the debounced lookup fires and resolves, and
the matching result is then selected: after the selection no timer is armed
and a further 300 ms elapse issues no new lookup. -/
theorem select_same_label_no_relookup_counterexample :
    (step (step (step (step (initState true 28 84)
          (.typeText "Kathmandu")) (.elapse 300))
          (.resolve "Kathmandu" (.success [⟨"Kathmandu", (85, 27)⟩])))
          (.select ⟨"Kathmandu", (85, 27)⟩)).timers = []
    ∧ (step (step (step (step (step (initState true 28 84)
          (.typeText "Kathmandu")) (.elapse 300))
          (.resolve "Kathmandu" (.success [⟨"Kathmandu", (85, 27)⟩])))
          (.select ⟨"Kathmandu", (85, 27)⟩)) (.elapse 300)).lookups
        = (step (step (step (step (initState true 28 84)
          (.typeText "Kathmandu")) (.elapse 300))
          (.resolve "Kathmandu" (.success [⟨"Kathmandu", (85, 27)⟩])))
          (.select ⟨"Kathmandu", (85, 27)⟩)).lookups := by
  decide

/-- Claim C10 as amended: selecting a search result sets the search text to
the result label; when that label differs from the current search text this
re-arms the 300 ms debounce timer, so with no further change a geocoding
lookup for the label is issued 300 ms later and its successful response
replaces the result list — a lookup is triggered by any search-text change,
not only by keystrokes.  (When the label equals the current text the effect
does not re-run and no new lookup is scheduled.) -/
theorem select_new_label_schedules_lookup (s : PickerState) (r : SearchResult)
    (h : Reachable s) (hm : s.mounted = true)
    (hne : r.place_name ≠ s.searchInput) (hb : isBlank r.place_name = false) :
    (step s (.select r)).searchInput = r.place_name
    ∧ (step s (.select r)).timers = [⟨s.nextId, s.now + 300, r.place_name⟩]
    ∧ (step (step s (.select r)) (.elapse 300)).lookups
        = s.lookups ++ [(s.now + 300, r.place_name)]
    ∧ (step (step s (.select r)) (.elapse 300)).netCalls
        = s.netCalls ++ [r.place_name]
    ∧ (∀ feats, (step (step (step s (.select r)) (.elapse 300))
          (.resolve r.place_name (.success feats))).searchResults = feats) := by
  have hinv := reachable_timerInv h
  have hsel := step_select_eq s r hm
  have htm : (step s (.select r)).timers
      = [⟨s.nextId, s.now + 300, r.place_name⟩] := by
    rw [hsel]
    exact rearm_timers_ne
      (show (selectLocation s r).searchInput ≠ s.searchInput from hne)
      (clearLast_eq_nil (s := selectLocation s r) hinv.single)
  have hnow : (step s (.select r)).now = s.now := by
    rw [hsel, rearm_now]; rfl
  have hlk : (step s (.select r)).lookups = s.lookups := by
    rw [hsel, rearm_lookups]; rfl
  have hnc : (step s (.select r)).netCalls = s.netCalls := by
    rw [hsel, rearm_netCalls]; rfl
  have hif : (step s (.select r)).inflight = s.inflight := by
    rw [hsel, rearm_inflight]; rfl
  have hfire := elapse_single_fire (step s (.select r))
    ⟨s.nextId, s.now + 300, r.place_name⟩ 300 htm
    (by rw [hnow]) hb
  refine ⟨by rw [hsel, rearm_searchInput]; rfl, htm, ?_, ?_, ?_⟩
  · rw [hfire.1, hlk]
  · rw [hfire.2.1, hnc]
  · intro feats
    refine resolve_success_results _ _ feats ?_
    rw [hfire.2.2, hif]
    simp

theorem select_new_label_schedules_lookup_witness :
    (step (initState true 28 84) (.select ⟨"Pokhara", (83, 28)⟩)).searchInput
        = "Pokhara"
    ∧ (step (initState true 28 84) (.select ⟨"Pokhara", (83, 28)⟩)).timers
        = [⟨(initState true 28 84).nextId, (initState true 28 84).now + 300,
            "Pokhara"⟩]
    ∧ (step (step (initState true 28 84) (.select ⟨"Pokhara", (83, 28)⟩))
          (.elapse 300)).lookups
        = (initState true 28 84).lookups
          ++ [((initState true 28 84).now + 300, "Pokhara")]
    ∧ PickerState.searchResults
          (step (step (step (initState true 28 84)
            (.select ⟨"Pokhara", (83, 28)⟩)) (.elapse 300))
            (.resolve "Pokhara"
              (.success [⟨"Pokhara Metropolitan", (83, 28)⟩])))
        = [⟨"Pokhara Metropolitan", (83, 28)⟩] := by
  obtain ⟨w1, w2, w3, _, w5⟩ := select_new_label_schedules_lookup
    (initState true 28 84) ⟨"Pokhara", (83, 28)⟩ (Reachable.init true 28 84)
    rfl (by decide) (by decide)
  exact ⟨w1, w2, w3, w5 [⟨"Pokhara Metropolitan", (83, 28)⟩]⟩

end LocationPicker
